import Mathlib

/-!
Verification of the documenso auto-reminders engine.

The definitions below are a shallow embedding of the reminder engine found in
the repository (database.js, reminder-service.js, stop-reminders.js,
documenso-api.js).  Timestamps are modelled as integers (seconds); the SQLite
tables become lists of rows; promise-returning operations become pure state
transformers; the external Documenso API is an environment of oracle
functions passed to the dispatcher.
-/

namespace AutoReminders

/-- Row of the document_reminders table (database.js, table creation in init). -/
structure Subscription where
  documentId : Nat
  enabled : Bool
  intervalDays : Nat
  maxReminders : Nat
  createdAt : Int
  stoppedAt : Option Int
  stoppedReason : Option String
deriving DecidableEq

/-- Row of the reminder_history table. -/
structure HistoryRow where
  documentId : Nat
  recipientIds : List Nat
  sentAt : Int
  reminderCount : Nat
  success : Bool
  errorMessage : Option String
deriving DecidableEq

/-- Row of the stopped_reminders table; recipientId none means the whole document. -/
structure StoppedRow where
  documentId : Nat
  recipientId : Option Nat
  stoppedAt : Int
  stoppedReason : String
  stoppedBy : String
deriving DecidableEq

/-- The persistent store: the three SQLite tables of database.js. -/
structure Store where
  subscriptions : List Subscription
  history : List HistoryRow
  stopped : List StoppedRow
deriving DecidableEq

/-- History rows of one document (the LEFT JOIN of reminder_history in
getDocumentsForReminders, and the COUNT aggregation source). -/
def historyFor (s : Store) (d : Nat) : List HistoryRow :=
  s.history.filter (fun h => h.documentId == d)

/-- MAX(rh.sent_at) over a document's history rows; none when there are none. -/
def lastReminderSent (s : Store) (d : Nat) : Option Int :=
  (historyFor s d).foldl
    (fun acc h =>
      match acc with
      | none => some h.sentAt
      | some t => some (max t h.sentAt)) none

/-- database.js enableReminders: INSERT OR REPLACE into document_reminders with
enabled = 1 and fresh created_at; columns stopped_at and stopped_reason are not
supplied, so the replacing row carries their NULL defaults. -/
def enableReminders (s : Store) (documentId intervalDays maxReminders : Nat)
    (now : Int) : Store :=
  { s with subscriptions :=
      s.subscriptions.filter (fun sub => !(sub.documentId == documentId)) ++
        [⟨documentId, true, intervalDays, maxReminders, now, none, none⟩] }

/-- database.js stopReminders: always inserts a stopped_reminders row; when the
recipient argument is falsy in JavaScript (null, or the number 0) it also sets
enabled = 0, stopped_at and stopped_reason on the document_reminders row. -/
def stopReminders (s : Store) (documentId : Nat) (recipientId : Option Nat)
    (reason stoppedBy : String) (now : Int) : Store :=
  let s1 := { s with stopped :=
      s.stopped ++ [⟨documentId, recipientId, now, reason, stoppedBy⟩] }
  let falsy := match recipientId with
    | none => true
    | some r => r == 0
  if falsy then
    { s1 with subscriptions := s1.subscriptions.map (fun sub =>
        if sub.documentId == documentId then
          { sub with enabled := false, stoppedAt := some now,
                     stoppedReason := some reason }
        else sub) }
  else s1

/-- database.js recordReminderSent: append one reminder_history row. -/
def recordReminderSent (s : Store) (documentId : Nat) (recipientIds : List Nat)
    (reminderCount : Nat) (success : Bool) (errorMessage : Option String)
    (now : Int) : Store :=
  { s with history :=
      s.history ++ [⟨documentId, recipientIds, now, reminderCount, success,
        errorMessage⟩] }

/-- database.js isReminderStopped: COUNT(*) > 0 over stopped_reminders rows with
this document_id and (recipient_id IS NULL OR recipient_id = ?).  With a NULL
parameter the SQL equality never matches, so only document-level rows count. -/
def isReminderStopped (s : Store) (documentId : Nat)
    (recipientId : Option Nat) : Bool :=
  s.stopped.any (fun row =>
    row.documentId == documentId &&
      (row.recipientId == (none : Option Nat) ||
        (recipientId.isSome && row.recipientId == recipientId)))

/-- Candidate row produced by getDocumentsForReminders: the subscription columns
together with the two aggregates of the query. -/
structure CandidateRow where
  sub : Subscription
  reminder_count : Nat
  last_reminder_sent : Option Int
deriving DecidableEq

/-- The aggregates attached to one subscription by the grouped query. -/
def candidateOf (s : Store) (sub : Subscription) : CandidateRow :=
  ⟨sub, (historyFor s sub.documentId).length, lastReminderSent s sub.documentId⟩

/-- The HAVING clause of getDocumentsForReminders: reminder_count = 0, or
reminder_count < max_reminders and last_reminder_sent shifted by interval_days
days is at or before now.  datetime(NULL, ...) compares as false in SQLite. -/
def dueHaving (sub : Subscription) (count : Nat) (last : Option Int)
    (now : Int) : Bool :=
  count == 0 ||
    (count < sub.maxReminders &&
      match last with
      | some t => decide (t + (sub.intervalDays : Int) * 86400 ≤ now)
      | none => false)

/-- database.js getDocumentsForReminders: enabled subscriptions grouped with
their history aggregates, kept when the HAVING clause holds. -/
def getDocumentsForReminders (s : Store) (now : Int) : List CandidateRow :=
  (s.subscriptions.filter (fun sub => sub.enabled)).filterMap (fun sub =>
    let c := candidateOf s sub
    if dueHaving sub c.reminder_count c.last_reminder_sent now then some c
    else none)

/-- stop-reminders.js resumeReminders: enableReminders with the configured
defaults (interval 4 days, max 10), then DELETE FROM stopped_reminders for the
document. -/
def resumeReminders (s : Store) (documentId : Nat) (now : Int) : Store :=
  let s1 := enableReminders s documentId 4 10 now
  { s1 with stopped :=
      s1.stopped.filter (fun r => !(r.documentId == documentId)) }

/-- One recipient of a Documenso document as seen through the API. -/
structure Recipient where
  id : Nat
  status : String
deriving DecidableEq

/-- A Documenso document as returned by the API getDocument call. -/
structure Document where
  id : Nat
  recipients : List Recipient
deriving DecidableEq

/-- Result object of documenso-api.js sendReminder: it never throws, it returns
success together with an optional error message. -/
structure SendResult where
  success : Bool
  error : Option String
deriving DecidableEq

/-- The external Documenso API, modelled as oracle functions: the health check
outcome, the per-document fetch (error branch carries the thrown message), and
the reminder dispatch. -/
structure Env where
  healthy : Bool
  getDocument : Nat → Except String Document
  sendReminder : Nat → List Nat → SendResult

/-- documenso-api.js getPendingRecipients: ids of recipients whose status is
PENDING. -/
def getPendingRecipients (doc : Document) : List Nat :=
  (doc.recipients.filter (fun r => r.status == "PENDING")).map (fun r => r.id)

/-- JavaScript list-of-characters model of one string starting with another. -/
def charsStartWith : List Char → List Char → Bool
  | _, [] => true
  | [], _ :: _ => false
  | c :: cs, p :: ps => c == p && charsStartWith cs ps

/-- JavaScript String.includes over character lists. -/
def charsInclude (pat : List Char) : List Char → Bool
  | [] => charsStartWith [] pat
  | c :: cs => charsStartWith (c :: cs) pat || charsInclude pat cs

/-- reminder-service.js test for a missing document: the thrown message
includes the substring 404 or the substring not found. -/
def isNotFoundError (msg : String) : Bool :=
  charsInclude "404".data msg.data || charsInclude "not found".data msg.data

/-- Outcome of processDocumentReminder for one candidate: the returned object
with its sent flag and reason, or the thrown error message. -/
inductive DocOutcome where
  | ok (sent : Bool) (reason : String)
  | failed (msg : String)
deriving DecidableEq

/-- reminder-service.js processDocumentReminder: the per-candidate pipeline.
Gates in source order: document-level stop check, document fetch (404 and
not-found messages auto-stop the subscription), completion check, max-reminders
check, per-recipient stop filtering, then the dry-run or real dispatch with its
history write. -/
def processDocumentReminder (env : Env) (s : Store) (cand : CandidateRow)
    (dryRun : Bool) (now : Int) : Store × DocOutcome :=
  let documentId := cand.sub.documentId
  if isReminderStopped s documentId none then
    (s, .ok false "Reminders stopped for this document")
  else
    match env.getDocument documentId with
    | .error msg =>
      if isNotFoundError msg then
        (stopReminders s documentId none "document_not_found" "system" now,
          .ok false "Document no longer exists")
      else (s, .failed msg)
    | .ok document =>
      let pendingRecipients := getPendingRecipients document
      if pendingRecipients.isEmpty then
        (stopReminders s documentId none "document_completed" "system" now,
          .ok false "Document is fully signed")
      else if cand.sub.maxReminders ≤ cand.reminder_count then
        (stopReminders s documentId none "max_reminders_reached" "system" now,
          .ok false "Maximum reminders reached")
      else
        let activeRecipients := pendingRecipients.filter
          (fun r => !(isReminderStopped s documentId (some r)))
        if activeRecipients.isEmpty then
          (s, .ok false "All recipients have stopped reminders")
        else
          let reminderCount := cand.reminder_count + 1
          if dryRun then
            (recordReminderSent s documentId activeRecipients reminderCount
              true none now, .ok true "Dry run - simulated")
          else
            let result := env.sendReminder documentId activeRecipients
            let s1 := recordReminderSent s documentId activeRecipients
              reminderCount result.success result.error now
            if result.success then
              (s1, .ok true "Reminder sent successfully")
            else (s1, .failed (result.error.getD ""))

/-- The aggregate object returned by processReminders. -/
structure CycleResult where
  processed : Nat
  sent : Nat
  errors : Nat
deriving DecidableEq

/-- One iteration of the processReminders loop: a returned object bumps
processed (and sent when a reminder went out); a thrown error bumps errors and
the loop moves on to the next candidate. -/
def cycleStep (env : Env) (dryRun : Bool) (now : Int)
    (acc : Store × CycleResult) (cand : CandidateRow) : Store × CycleResult :=
  match processDocumentReminder env acc.1 cand dryRun now with
  | (s1, .ok true _) => (s1, ⟨acc.2.processed + 1, acc.2.sent + 1, acc.2.errors⟩)
  | (s1, .ok false _) => (s1, ⟨acc.2.processed + 1, acc.2.sent, acc.2.errors⟩)
  | (s1, .failed _) => (s1, ⟨acc.2.processed, acc.2.sent, acc.2.errors + 1⟩)

/-- reminder-service.js processReminders: fail fast when the health check is
unhealthy (before touching the store), otherwise sweep the due candidates and
aggregate counts; the empty-candidate early return produces the same zero
counts as an empty sweep. -/
def processReminders (env : Env) (s : Store) (dryRun : Bool) (now : Int) :
    Store × Except String CycleResult :=
  if env.healthy then
    let step := (getDocumentsForReminders s now).foldl
      (cycleStep env dryRun now) (s, ⟨0, 0, 0⟩)
    (step.1, .ok step.2)
  else (s, .error "API health check failed")

/-- One iteration of the autoEnrollPendingDocuments loop: the already-enrolled
test consults getDocumentsForReminders on the current store, so it only sees
enabled subscriptions that are currently due. -/
def autoEnrollStep (now : Int) (acc : Store × Nat) (docId : Nat) : Store × Nat :=
  let documentsInDb := getDocumentsForReminders acc.1 now
  let alreadyEnrolled := documentsInDb.any (fun c => c.sub.documentId == docId)
  if alreadyEnrolled then acc
  else (enableReminders acc.1 docId 4 10 now, acc.2 + 1)

/-- reminder-service.js autoEnrollPendingDocuments over the ids of the pending
documents reported by the API; returns the new store and the enrolled count. -/
def autoEnrollPendingDocuments (s : Store) (pendingDocIds : List Nat)
    (now : Int) : Store × Nat :=
  pendingDocIds.foldl (autoEnrollStep now) (s, 0)

/-! ### Derived views, spec-side predicates and concrete stores -/

/-- Subscription rows of one document. -/
def subsFor (s : Store) (d : Nat) : List Subscription :=
  s.subscriptions.filter (fun sub => sub.documentId == d)

/-- Suppression rows of one document. -/
def stoppedFor (s : Store) (d : Nat) : List StoppedRow :=
  s.stopped.filter (fun r => r.documentId == d)

/-- The data-model invariant claimed by the spec: a document-level suppression
implies the document's subscription rows are disabled. -/
def docSuppressionInvariant (s : Store) : Prop :=
  ∀ row ∈ s.stopped, row.recipientId = none →
    ∀ sub ∈ s.subscriptions, sub.documentId = row.documentId →
      sub.enabled = false

/-- Subscription with three prior reminders and maxReminders 3. -/
def maxedSub : Subscription := ⟨1, true, 4, 3, 0, none, none⟩

/-- Store whose only subscription has reached its reminder cap: three history
rows for document 1. -/
def maxedStore : Store :=
  ⟨[maxedSub],
    [⟨1, [7], 100, 1, true, none⟩, ⟨1, [7], 200, 2, true, none⟩,
      ⟨1, [7], 300, 3, true, none⟩], []⟩

/-- Healthy environment whose document 1 still has a pending recipient. -/
def maxedEnv : Env :=
  ⟨true, fun _ => .ok ⟨1, [⟨7, "PENDING"⟩]⟩, fun _ _ => ⟨true, none⟩⟩

/-- Store with one enabled subscription, before any stop. -/
def invStore0 : Store := ⟨[⟨1, true, 4, 10, 0, none, none⟩], [], []⟩

/-- invStore0 after a document-level stop. -/
def invStore1 : Store := stopReminders invStore0 1 none "manual" "owner" 50

/-- invStore1 after a plain enableReminders upsert: it re-enables the
subscription but leaves the document-level suppression row in place. -/
def invStore2 : Store := enableReminders invStore1 1 4 10 60

/-- Store tracking document 1 with a stopped subscription (enabled false,
stopped fields set) plus its document-level suppression row. -/
def stoppedTrackedStore : Store :=
  ⟨[⟨1, false, 4, 10, 0, some 10, some "manual"⟩], [],
    [⟨1, none, 10, "manual", "owner"⟩]⟩

/-- Store with one enabled due subscription whose only pending recipient has a
recipient-level suppression, so the candidate is evaluated but nothing is due. -/
def skippedStore : Store :=
  ⟨[⟨1, true, 4, 10, 0, none, none⟩], [],
    [⟨1, some 5, 0, "manual", "recipient"⟩]⟩

/-- Healthy environment for skippedStore: document 1 has pending recipient 5. -/
def skippedEnv : Env :=
  ⟨true, fun _ => .ok ⟨1, [⟨5, "PENDING"⟩]⟩, fun _ _ => ⟨true, none⟩⟩

/-- Store with one enabled, never-reminded subscription for document 3. -/
def dispatchStore : Store := ⟨[⟨3, true, 4, 10, 0, none, none⟩], [], []⟩

/-- Environment whose reminder dispatch always fails with a recorded message. -/
def dispatchFailEnv : Env :=
  ⟨true, fun _ => .ok ⟨3, [⟨9, "PENDING"⟩]⟩,
    fun _ _ => ⟨false, some "Request failed with status code 500"⟩⟩

/-- Environment whose document fetch throws a 404-style message. -/
def notFoundEnv : Env :=
  ⟨true,
    fun _ => .error "Failed to fetch document 3: Request failed with status code 404",
    fun _ _ => ⟨true, none⟩⟩

/-- Spec predicate of listDueCandidates: enabled and (no prior event OR
(eventCount < maxReminders AND lastEventTime + intervalDays days at or before
now)).  Written from the spec sentence, to be compared with the query. -/
def specDueCandidate (s : Store) (now : Int) (sub : Subscription) : Prop :=
  sub.enabled = true ∧
    (historyFor s sub.documentId = [] ∨
      ((historyFor s sub.documentId).length < sub.maxReminders ∧
        ∃ t, lastReminderSent s sub.documentId = some t ∧
          t + (sub.intervalDays : Int) * 86400 ≤ now))

/-- Candidate row carried by the witnesses for the dispatch theorems. -/
def dispatchCand : CandidateRow := ⟨⟨3, true, 4, 10, 0, none, none⟩, 0, none⟩

/-- Subscription at the interval boundary: interval 4 days, max 10. -/
def boundarySub : Subscription := ⟨1, true, 4, 10, 0, none, none⟩

/-- Store with one enabled subscription and one reminder event sent at time 100. -/
def boundaryStore : Store := ⟨[boundarySub], [⟨1, [7], 100, 1, true, none⟩], []⟩

/-- Store containing only a recipient-level suppression for document 1. -/
def recipientOnlyStore : Store := ⟨[], [], [⟨1, some 5, 0, "manual", "recipient"⟩]⟩

/-! ### Helper lemmas about filters -/

theorem filter_pos_filter_neg {α : Type} (p : α → Bool) (l : List α) :
    (l.filter (fun a => !(p a))).filter p = [] := by
  induction l with
  | nil => rfl
  | cons a l ih => by_cases h : p a <;> simp [List.filter, h, ih]

theorem filter_neg_filter_neg {α : Type} (p : α → Bool) (l : List α) :
    (l.filter (fun a => !(p a))).filter (fun a => !(p a)) =
      l.filter (fun a => !(p a)) := by
  induction l with
  | nil => rfl
  | cons a l ih => by_cases h : p a <;> simp [List.filter, h, ih]

/-- The HAVING clause agrees with the spec disjunction at the aggregates the
query computes. -/
theorem dueHaving_eq_true_iff (s : Store) (sub : Subscription) (now : Int) :
    dueHaving sub (historyFor s sub.documentId).length
        (lastReminderSent s sub.documentId) now = true ↔
      (historyFor s sub.documentId = [] ∨
        ((historyFor s sub.documentId).length < sub.maxReminders ∧
          ∃ t, lastReminderSent s sub.documentId = some t ∧
            t + (sub.intervalDays : Int) * 86400 ≤ now)) := by
  unfold dueHaving
  cases h : lastReminderSent s sub.documentId with
  | none =>
    simp [List.length_eq_zero]
  | some t =>
    simp [List.length_eq_zero, h]

/-- Membership characterization of the due-candidate query. -/
theorem mem_getDocumentsForReminders_iff (s : Store) (now : Int)
    (c : CandidateRow) :
    c ∈ getDocumentsForReminders s now ↔
      ∃ sub ∈ s.subscriptions, sub.enabled = true ∧
        dueHaving sub (historyFor s sub.documentId).length
          (lastReminderSent s sub.documentId) now = true ∧
        c = candidateOf s sub := by
  simp only [getDocumentsForReminders, List.mem_filterMap, List.mem_filter]
  constructor
  · rintro ⟨sub, ⟨hmem, hen⟩, hsome⟩
    rw [Option.ite_none_right_eq_some, Option.some_inj] at hsome
    exact ⟨sub, hmem, hen, hsome.1, hsome.2.symm⟩
  · rintro ⟨sub, hmem, hen, hdue, hc⟩
    refine ⟨sub, ⟨hmem, hen⟩, ?_⟩
    rw [Option.ite_none_right_eq_some, Option.some_inj]
    exact ⟨hdue, hc.symm⟩

/-- C1: getDocumentsForReminders returns exactly the enabled subscriptions with
no prior event, or with event count below maxReminders and last event time plus
intervalDays days at or before now; the interval boundary is inclusive: with a
last event at time 100 and intervalDays 4, the subscription is returned at now
equal to 100 plus 345600 seconds (exactly 4 days) and is not returned at now
equal to 100 plus 336960 seconds (3.9 days). -/
theorem getDocumentsForReminders_spec :
    (∀ (s : Store) (now : Int) (c : CandidateRow),
        c ∈ getDocumentsForReminders s now ↔
          ∃ sub ∈ s.subscriptions, specDueCandidate s now sub ∧
            c = candidateOf s sub) ∧
    candidateOf boundaryStore boundarySub ∈
        getDocumentsForReminders boundaryStore 345700 ∧
    getDocumentsForReminders boundaryStore 337060 = [] := by
  refine ⟨?_, by decide, by decide⟩
  intro s now c
  rw [mem_getDocumentsForReminders_iff]
  constructor
  · rintro ⟨sub, hmem, hen, hdue, hc⟩
    exact ⟨sub, hmem, ⟨hen, (dueHaving_eq_true_iff s sub now).mp hdue⟩, hc⟩
  · rintro ⟨sub, hmem, ⟨hen, hdue⟩, hc⟩
    exact ⟨sub, hmem, hen, (dueHaving_eq_true_iff s sub now).mpr hdue, hc⟩

/-- C6: enableReminders is an idempotent upsert: after one call there is
exactly one subscription row for the document, carrying the given policy,
enabled, with stoppedAt and stoppedReason cleared; a second identical call
returns the very same store. -/
theorem enableReminders_idempotent :
    ∀ (s : Store) (d i m : Nat) (t : Int),
      enableReminders (enableReminders s d i m t) d i m t =
          enableReminders s d i m t ∧
      (enableReminders s d i m t).subscriptions.filter
          (fun sub => sub.documentId == d) =
        [⟨d, true, i, m, t, none, none⟩] := by
  intro s d i m t
  constructor
  · show Store.mk _ _ _ = Store.mk _ _ _
    simp only [enableReminders, List.filter_append]
    rw [filter_neg_filter_neg (fun sub : Subscription => sub.documentId == d)]
    simp [List.filter]
  · simp only [enableReminders, List.filter_append]
    rw [filter_pos_filter_neg (fun sub : Subscription => sub.documentId == d)]
    simp [List.filter]

/-- C7: stopping a document (document level) and then resuming it leaves
exactly one subscription row for the document, enabled with the default
policy, and zero suppression rows for the document. -/
theorem stop_resume_round_trip :
    ∀ (s : Store) (d : Nat) (reason who : String) (t u : Int),
      (resumeReminders (stopReminders s d none reason who t) d u).subscriptions.filter
          (fun sub => sub.documentId == d) =
        [⟨d, true, 4, 10, u, none, none⟩] ∧
      (resumeReminders (stopReminders s d none reason who t) d u).stopped.filter
          (fun r => r.documentId == d) = [] := by
  intro s d reason who t u
  constructor
  · simp only [resumeReminders, enableReminders, List.filter_append]
    rw [filter_pos_filter_neg (fun sub : Subscription => sub.documentId == d)]
    simp [List.filter]
  · simp only [resumeReminders, enableReminders]
    exact filter_pos_filter_neg (fun r : StoppedRow => r.documentId == d) _

/-! ### Frame lemmas: writes keyed to one document do not touch another -/

theorem filter_map_of_id_on {α : Type} (p : α → Bool) (f : α → α)
    (hf : ∀ a, p a = true → f a = a) (hp : ∀ a, p (f a) = p a) (l : List α) :
    (l.map f).filter p = l.filter p := by
  induction l with
  | nil => rfl
  | cons a l ih =>
    simp only [List.map_cons, List.filter_cons, hp a]
    by_cases h : p a = true
    · rw [if_pos h, if_pos h, hf a h, ih]
    · rw [if_neg h, if_neg h, ih]

theorem subsFilter_map_stop (l : List Subscription) (did d : Nat) (h : did ≠ d)
    (now : Int) (reason : String) :
    (l.map (fun sub =>
        if sub.documentId == did then
          { sub with enabled := false, stoppedAt := some now,
                     stoppedReason := some reason }
        else sub)).filter (fun sub => sub.documentId == d) =
      l.filter (fun sub => sub.documentId == d) := by
  refine filter_map_of_id_on _ _ ?_ ?_ l
  · intro a ha
    rw [if_neg ?_]
    intro hc
    exact h ((beq_iff_eq.mp hc).symm.trans (beq_iff_eq.mp ha))
  · intro a
    by_cases hc : (a.documentId == did) = true
    · rw [if_pos hc]
    · rw [if_neg hc]

theorem stopReminders_frame (s : Store) (did : Nat) (r : Option Nat)
    (reason who : String) (now : Int) (d : Nat) (h : did ≠ d) :
    subsFor (stopReminders s did r reason who now) d = subsFor s d ∧
    stoppedFor (stopReminders s did r reason who now) d = stoppedFor s d := by
  unfold stopReminders subsFor stoppedFor
  dsimp only
  constructor
  · split
    · exact subsFilter_map_stop s.subscriptions did d h now reason
    · rfl
  · split <;> simp [List.filter_append, List.filter_cons, h]

theorem processDocumentReminder_frame (env : Env) (s : Store)
    (cand : CandidateRow) (dry : Bool) (now : Int) (d : Nat)
    (h : cand.sub.documentId ≠ d) :
    subsFor (processDocumentReminder env s cand dry now).1 d = subsFor s d ∧
    stoppedFor (processDocumentReminder env s cand dry now).1 d =
      stoppedFor s d := by
  have hstop := fun reason who =>
    stopReminders_frame s cand.sub.documentId none reason who now d h
  by_cases h1 : isReminderStopped s cand.sub.documentId none = true
  · simp only [processDocumentReminder, h1, if_true]
    constructor <;> trivial
  · rcases h2 : env.getDocument cand.sub.documentId with msg | doc
    · by_cases h3 : isNotFoundError msg = true
      · simp only [processDocumentReminder, h1, h2, h3]
        exact hstop _ _
      · simp only [processDocumentReminder, h1, h2, h3]
        constructor <;> trivial
    · by_cases h4 : (getPendingRecipients doc).isEmpty = true
      · simp only [processDocumentReminder, h1, h2, h4]
        exact hstop _ _
      · by_cases h5 : cand.sub.maxReminders ≤ cand.reminder_count
        · simp only [processDocumentReminder, h1, h2, h4, h5]
          exact hstop _ _
        · by_cases h6 : ((getPendingRecipients doc).filter
              (fun r => !(isReminderStopped s cand.sub.documentId
                (some r)))).isEmpty = true
          · simp only [processDocumentReminder, h1, h2, h4, h5, h6]
            constructor <;> trivial
          · by_cases h7 : dry = true
            · simp only [processDocumentReminder, h1, h2, h4, h5, h6, h7]
              constructor <;> trivial
            · by_cases h8 : (env.sendReminder cand.sub.documentId
                  ((getPendingRecipients doc).filter
                    (fun r => !(isReminderStopped s cand.sub.documentId
                      (some r))))).success = true
              · simp only [processDocumentReminder, h1, h2, h4, h5, h6, h7, h8]
                constructor <;> trivial
              · simp only [processDocumentReminder, h1, h2, h4, h5, h6, h7, h8]
                constructor <;> trivial

theorem cycleStep_frame (env : Env) (dry : Bool) (now : Int)
    (acc : Store × CycleResult) (cand : CandidateRow) (d : Nat)
    (h : cand.sub.documentId ≠ d) :
    subsFor (cycleStep env dry now acc cand).1 d = subsFor acc.1 d ∧
    stoppedFor (cycleStep env dry now acc cand).1 d = stoppedFor acc.1 d := by
  have hp := processDocumentReminder_frame env acc.1 cand dry now d h
  rcases hq : processDocumentReminder env acc.1 cand dry now with ⟨s1, out⟩
  rw [hq] at hp
  cases out with
  | ok sent reason => cases sent <;> simp only [cycleStep, hq] <;> exact hp
  | failed m => simp only [cycleStep, hq]; exact hp

theorem foldl_cycleStep_frame (env : Env) (dry : Bool) (now : Int) (d : Nat) :
    ∀ (cands : List CandidateRow), (∀ c ∈ cands, c.sub.documentId ≠ d) →
      ∀ acc : Store × CycleResult,
        subsFor (cands.foldl (cycleStep env dry now) acc).1 d =
          subsFor acc.1 d ∧
        stoppedFor (cands.foldl (cycleStep env dry now) acc).1 d =
          stoppedFor acc.1 d := by
  intro cands
  induction cands with
  | nil => exact fun _ acc => ⟨rfl, rfl⟩
  | cons c cs ih =>
    intro h acc
    simp only [List.foldl_cons]
    have h1 := cycleStep_frame env dry now acc c d (h c (List.mem_cons_self c cs))
    have h2 := ih (fun x hx => h x (List.mem_cons_of_mem c hx))
      (cycleStep env dry now acc c)
    exact ⟨h2.1.trans h1.1, h2.2.trans h1.2⟩

/-- Unfolding of a document-level stop (recipient none is falsy). -/
theorem stopReminders_none_eq (s : Store) (d : Nat) (reason who : String)
    (now : Int) :
    stopReminders s d none reason who now =
      { subscriptions := s.subscriptions.map (fun sub =>
          if sub.documentId == d then
            { sub with enabled := false, stoppedAt := some now,
                       stoppedReason := some reason }
          else sub),
        history := s.history,
        stopped := s.stopped ++ [⟨d, none, now, reason, who⟩] } := rfl

/-- A document-level stop disables every subscription row of the document. -/
theorem subsFor_stopReminders_none_disabled (s : Store) (d : Nat)
    (reason who : String) (now : Int) :
    ∀ sub ∈ subsFor (stopReminders s d none reason who now) d,
      sub.enabled = false := by
  intro sub hsub
  rw [stopReminders_none_eq] at hsub
  simp only [subsFor] at hsub
  rw [List.mem_filter] at hsub
  obtain ⟨hmem, hd⟩ := hsub
  rw [List.mem_map] at hmem
  obtain ⟨a, ha, hfa⟩ := hmem
  subst hfa
  by_cases hc : (a.documentId == d) = true
  · rw [if_pos hc]
  · rw [if_neg hc] at hd ⊢
    exact absurd hd hc

/-! ### Counting lemmas for the cycle aggregates -/

theorem cycleStep_counts (env : Env) (dry : Bool) (now : Int)
    (acc : Store × CycleResult) (cand : CandidateRow)
    (h : acc.2.sent ≤ acc.2.processed) :
    (cycleStep env dry now acc cand).2.sent ≤
      (cycleStep env dry now acc cand).2.processed ∧
    (cycleStep env dry now acc cand).2.processed +
        (cycleStep env dry now acc cand).2.errors =
      acc.2.processed + acc.2.errors + 1 := by
  rcases hq : processDocumentReminder env acc.1 cand dry now with ⟨s1, out⟩
  cases out with
  | ok sent reason =>
    cases sent <;> simp only [cycleStep, hq] <;> exact ⟨by omega, by omega⟩
  | failed m => simp only [cycleStep, hq]; exact ⟨by omega, by omega⟩

theorem foldl_cycleStep_counts (env : Env) (dry : Bool) (now : Int) :
    ∀ (cands : List CandidateRow) (acc : Store × CycleResult),
      acc.2.sent ≤ acc.2.processed →
        (cands.foldl (cycleStep env dry now) acc).2.sent ≤
          (cands.foldl (cycleStep env dry now) acc).2.processed ∧
        (cands.foldl (cycleStep env dry now) acc).2.processed +
            (cands.foldl (cycleStep env dry now) acc).2.errors =
          acc.2.processed + acc.2.errors + cands.length := by
  intro cands
  induction cands with
  | nil => exact fun acc h => ⟨h, by simp⟩
  | cons c cs ih =>
    intro acc h
    simp only [List.foldl_cons, List.length_cons]
    have h1 := cycleStep_counts env dry now acc c h
    have h2 := ih (cycleStep env dry now acc c) h1.1
    exact ⟨h2.1, by omega⟩

/-- C10: the document-level check isReminderStopped with no recipient returns
true exactly when a document-level suppression row (recipientId none) exists
for the document; in particular a store with only recipient-level rows yields
false. -/
theorem isReminderStopped_docLevel_spec :
    (∀ (s : Store) (d : Nat),
        isReminderStopped s d none = true ↔
          ∃ row ∈ s.stopped, row.documentId = d ∧ row.recipientId = none) ∧
    isReminderStopped recipientOnlyStore 1 none = false := by
  refine ⟨?_, by decide⟩
  intro s d
  simp [isReminderStopped, List.any_eq_true, and_comm]

/-- C2 (counterexample): a subscription with maxReminders 3 and exactly 3
prior events is never selected by the due query, and the next cycle performs
no writes at all: contrary to the claim, no document-level suppression with
reason max_reminders_reached is written and enabled stays true. -/
theorem maxReminders_no_transition_counterexample :
    getDocumentsForReminders maxedStore 2000000 = [] ∧
    processReminders maxedEnv maxedStore false 2000000 =
      (maxedStore, Except.ok ⟨0, 0, 0⟩) ∧
    maxedStore.subscriptions = [maxedSub] ∧
    maxedSub.enabled = true ∧ maxedSub.maxReminders = 3 ∧
    (historyFor maxedStore 1).length = 3 ∧
    maxedStore.stopped = [] :=
  ⟨rfl, rfl, rfl, rfl, rfl, rfl, rfl⟩

/-- C2 (amended): with maxReminders 3 and exactly 3 recorded events for the
document, the next cycle yields due false — the document is not selected as a
candidate — but the subscription is NOT transitioned to a stopped state: the
cycle leaves the document's subscription row and suppression rows unchanged,
because the max_reminders_reached stop only runs for selected candidates. -/
theorem maxReminders_reached_skips_without_stop (env : Env) (s : Store)
    (dry : Bool) (now : Int) (d : Nat) (sub : Subscription)
    (hsubs : subsFor s d = [sub]) (hmax : sub.maxReminders = 3)
    (hcount : (historyFor s d).length = 3) :
    (∀ c ∈ getDocumentsForReminders s now, c.sub.documentId ≠ d) ∧
    subsFor (processReminders env s dry now).1 d = [sub] ∧
    stoppedFor (processReminders env s dry now).1 d = stoppedFor s d := by
  have hnc : ∀ c ∈ getDocumentsForReminders s now, c.sub.documentId ≠ d := by
    intro c hc hcd
    obtain ⟨sub2, hmem, hen, hdue, hceq⟩ :=
      (mem_getDocumentsForReminders_iff s now c).mp hc
    rw [hceq] at hcd
    have hd2 : sub2.documentId = d := hcd
    have hsub2 : sub2 ∈ subsFor s d :=
      List.mem_filter.mpr ⟨hmem, by simp [hd2]⟩
    rw [hsubs, List.mem_singleton] at hsub2
    subst hsub2
    rw [hd2, hcount] at hdue
    simp [dueHaving, hmax] at hdue
  refine ⟨hnc, ?_, ?_⟩ <;> by_cases hh : env.healthy = true
  · have hf := foldl_cycleStep_frame env dry now d
      (getDocumentsForReminders s now) hnc (s, ⟨0, 0, 0⟩)
    simp only [processReminders, hh, if_true]
    exact hf.1.trans hsubs
  · simp only [processReminders, hh]
    exact hsubs
  · have hf := foldl_cycleStep_frame env dry now d
      (getDocumentsForReminders s now) hnc (s, ⟨0, 0, 0⟩)
    simp only [processReminders, hh, if_true]
    exact hf.2
  · simp only [processReminders, hh]
    rfl

/-- Witness: the amended C2 theorem applied to the concrete maxed-out store. -/
theorem maxReminders_reached_skips_without_stop_witness :
    subsFor (processReminders maxedEnv maxedStore false 2000000).1 1 =
      [maxedSub] ∧
    stoppedFor (processReminders maxedEnv maxedStore false 2000000).1 1 =
      stoppedFor maxedStore 1 :=
  ⟨(maxReminders_reached_skips_without_stop maxedEnv maxedStore false 2000000 1
      maxedSub (by decide) rfl (by decide)).2.1,
    (maxReminders_reached_skips_without_stop maxedEnv maxedStore false 2000000 1
      maxedSub (by decide) rfl (by decide)).2.2⟩

/-- C3: when the dispatch call fails for a candidate, the service records a
failed history row (and nothing else: subscriptions and suppressions are
untouched), the candidate is counted in errors, and the loop carries on; the
cycle as a whole raises only when the pre-cycle health check is unhealthy, in
which case the store is returned unchanged. -/
theorem dispatch_failure_isolated (env : Env) (s : Store) (cand : CandidateRow)
    (now : Int) (counts : CycleResult) (doc : Document) (e : String)
    (hng : isReminderStopped s cand.sub.documentId none = false)
    (hfetch : env.getDocument cand.sub.documentId = Except.ok doc)
    (hpend : (getPendingRecipients doc).isEmpty = false)
    (hmax : cand.reminder_count < cand.sub.maxReminders)
    (hact : ((getPendingRecipients doc).filter
        (fun r => !(isReminderStopped s cand.sub.documentId (some r)))).isEmpty
      = false)
    (hsend : env.sendReminder cand.sub.documentId
        ((getPendingRecipients doc).filter
          (fun r => !(isReminderStopped s cand.sub.documentId (some r)))) =
      ⟨false, some e⟩) :
    processDocumentReminder env s cand false now =
      (recordReminderSent s cand.sub.documentId
          ((getPendingRecipients doc).filter
            (fun r => !(isReminderStopped s cand.sub.documentId (some r))))
          (cand.reminder_count + 1) false (some e) now,
        DocOutcome.failed e) ∧
    (processDocumentReminder env s cand false now).1.subscriptions =
      s.subscriptions ∧
    (processDocumentReminder env s cand false now).1.stopped = s.stopped ∧
    cycleStep env false now (s, counts) cand =
      ((processDocumentReminder env s cand false now).1,
        ⟨counts.processed, counts.sent, counts.errors + 1⟩) ∧
    (∀ (env2 : Env) (s2 : Store) (dry2 : Bool),
        env2.healthy = false →
          processReminders env2 s2 dry2 now =
            (s2, Except.error "API health check failed")) ∧
    (∀ (env2 : Env) (s2 : Store) (dry2 : Bool) (e2 : String),
        (processReminders env2 s2 dry2 now).2 = Except.error e2 →
          env2.healthy = false ∧ (processReminders env2 s2 dry2 now).1 = s2) := by
  have hng2 : ¬ (isReminderStopped s cand.sub.documentId none = true) := by
    simp [hng]
  have hmax2 : ¬ (cand.sub.maxReminders ≤ cand.reminder_count) :=
    Nat.not_le.mpr hmax
  have hmain : processDocumentReminder env s cand false now =
      (recordReminderSent s cand.sub.documentId
          ((getPendingRecipients doc).filter
            (fun r => !(isReminderStopped s cand.sub.documentId (some r))))
          (cand.reminder_count + 1) false (some e) now,
        DocOutcome.failed e) := by
    simp only [processDocumentReminder, hng2, hfetch, hpend, hmax2, hact, hsend,
      Option.getD_some, Bool.false_eq_true, if_false]
  refine ⟨hmain, by rw [hmain]; rfl, by rw [hmain]; rfl, ?_, ?_, ?_⟩
  · simp only [cycleStep, hmain]
  · intro env2 s2 dry2 hh
    simp [processReminders, hh]
  · intro env2 s2 dry2 e2 herr
    by_cases hh : env2.healthy = true
    · simp [processReminders, hh] at herr
    · refine ⟨by simpa using hh, ?_⟩
      simp [processReminders, hh]

/-- Witness: the C3 theorem applied to a concrete store, candidate and
environment whose sendReminder fails. -/
theorem dispatch_failure_isolated_witness :
    processDocumentReminder dispatchFailEnv dispatchStore dispatchCand
        false 500 =
      (recordReminderSent dispatchStore dispatchCand.sub.documentId
          ((getPendingRecipients ⟨3, [⟨9, "PENDING"⟩]⟩).filter
            (fun r => !(isReminderStopped dispatchStore
              dispatchCand.sub.documentId (some r))))
          (dispatchCand.reminder_count + 1) false
          (some "Request failed with status code 500") 500,
        DocOutcome.failed "Request failed with status code 500") :=
  (dispatch_failure_isolated dispatchFailEnv dispatchStore dispatchCand 500
    ⟨0, 0, 0⟩ ⟨3, [⟨9, "PENDING"⟩]⟩ "Request failed with status code 500"
    (by decide) rfl (by decide) (by decide) (by decide) rfl).1

/-- C4: a fetch failure whose message marks the document as missing (contains
404 or not found) makes the cycle auto-stop the subscription: a document-level
suppression with reason document_not_found and actor system is written, every
subscription row of the document is disabled, and the candidate is counted as
processed, not as an error. -/
theorem notFound_autoStops (env : Env) (s : Store) (cand : CandidateRow)
    (dry : Bool) (now : Int) (counts : CycleResult) (msg : String)
    (hng : isReminderStopped s cand.sub.documentId none = false)
    (hfetch : env.getDocument cand.sub.documentId = Except.error msg)
    (h404 : isNotFoundError msg = true) :
    processDocumentReminder env s cand dry now =
      (stopReminders s cand.sub.documentId none "document_not_found" "system"
        now, DocOutcome.ok false "Document no longer exists") ∧
    (processDocumentReminder env s cand dry now).1.stopped =
      s.stopped ++
        [⟨cand.sub.documentId, none, now, "document_not_found", "system"⟩] ∧
    (∀ sub ∈ subsFor (processDocumentReminder env s cand dry now).1
        cand.sub.documentId, sub.enabled = false) ∧
    cycleStep env dry now (s, counts) cand =
      ((processDocumentReminder env s cand dry now).1,
        ⟨counts.processed + 1, counts.sent, counts.errors⟩) := by
  have hng2 : ¬ (isReminderStopped s cand.sub.documentId none = true) := by
    simp [hng]
  have hmain : processDocumentReminder env s cand dry now =
      (stopReminders s cand.sub.documentId none "document_not_found" "system"
        now, DocOutcome.ok false "Document no longer exists") := by
    simp only [processDocumentReminder, hng2, hfetch, h404, if_true]
    rfl
  refine ⟨hmain, ?_, ?_, ?_⟩
  · rw [hmain, stopReminders_none_eq]
  · rw [hmain]
    exact subsFor_stopReminders_none_disabled s cand.sub.documentId _ _ now
  · simp only [cycleStep, hmain]

/-- Witness: the C4 theorem applied to a concrete store, candidate and
environment whose getDocument throws a 404 message. -/
theorem notFound_autoStops_witness :
    processDocumentReminder notFoundEnv dispatchStore dispatchCand false 500 =
      (stopReminders dispatchStore dispatchCand.sub.documentId none
          "document_not_found" "system" 500,
        DocOutcome.ok false "Document no longer exists") :=
  (notFound_autoStops notFoundEnv dispatchStore dispatchCand false 500
    ⟨0, 0, 0⟩ "Failed to fetch document 3: Request failed with status code 404"
    (by decide) rfl (by decide)).1

/-- C5 (counterexample): the suppression-implies-disabled invariant holds
after a document-level stop but is broken by a following enableReminders
upsert, which re-enables the subscription without clearing the document-level
suppression row; both states are reached using only the listed operations. -/
theorem suppression_invariant_counterexample :
    docSuppressionInvariant invStore1 ∧ ¬ docSuppressionInvariant invStore2 := by
  unfold docSuppressionInvariant
  constructor
  · decide
  · decide

/-- C5 (amended): the invariant (a document-level suppression row implies the
document's subscription rows are disabled) is preserved by stopReminders,
recordReminderSent and resumeReminders, but not by enableReminders (nor by
auto-enrollment, which calls it): the upsert re-enables without clearing
suppressions. -/
theorem suppression_invariant_preservation (s : Store)
    (h : docSuppressionInvariant s) :
    (∀ (d : Nat) (r : Option Nat) (reason who : String) (now : Int),
        docSuppressionInvariant (stopReminders s d r reason who now)) ∧
    (∀ (d : Nat) (rs : List Nat) (c : Nat) (ok : Bool) (err : Option String)
        (now : Int),
        docSuppressionInvariant (recordReminderSent s d rs c ok err now)) ∧
    (∀ (d : Nat) (now : Int),
        docSuppressionInvariant (resumeReminders s d now)) := by
  refine ⟨?_, ?_, ?_⟩
  · intro d r reason who now row hrow hnone sub hsub hdoc
    rcases r with _ | x
    · simp only [stopReminders_none_eq, List.mem_append, List.mem_map,
        List.mem_singleton] at hrow hsub
      obtain ⟨a, ha, hfa⟩ := hsub
      subst hfa
      by_cases hc : (a.documentId == d) = true
      · rw [if_pos hc]
      · rw [if_neg hc] at hdoc ⊢
        rcases hrow with hl | hr
        · exact h row hl hnone a ha hdoc
        · subst hr
          exact absurd (by simpa using hdoc) hc
    · by_cases hx : (x == 0) = true
      · have heq : stopReminders s d (some x) reason who now =
            { subscriptions := s.subscriptions.map (fun sub =>
                if sub.documentId == d then
                  { sub with enabled := false, stoppedAt := some now,
                             stoppedReason := some reason }
                else sub),
              history := s.history,
              stopped := s.stopped ++ [⟨d, some x, now, reason, who⟩] } := by
          simp only [stopReminders, hx, if_true]
        simp only [heq, List.mem_append, List.mem_map,
          List.mem_singleton] at hrow hsub
        obtain ⟨a, ha, hfa⟩ := hsub
        subst hfa
        by_cases hc : (a.documentId == d) = true
        · rw [if_pos hc]
        · rw [if_neg hc] at hdoc ⊢
          rcases hrow with hl | hr
          · exact h row hl hnone a ha hdoc
          · subst hr
            simp at hnone
      · have heq : stopReminders s d (some x) reason who now =
            { subscriptions := s.subscriptions, history := s.history,
              stopped := s.stopped ++ [⟨d, some x, now, reason, who⟩] } := by
          simp only [stopReminders, hx, if_false]
          rfl
        simp only [heq, List.mem_append, List.mem_singleton] at hrow hsub
        rcases hrow with hl | hr
        · exact h row hl hnone sub hsub hdoc
        · subst hr
          simp at hnone
  · intro d rs c ok err now
    exact h
  · intro d now row hrow hnone sub hsub hdoc
    simp only [resumeReminders, enableReminders] at hrow hsub
    rw [List.mem_filter] at hrow
    obtain ⟨hrow0, hrd⟩ := hrow
    rw [List.mem_append] at hsub
    rcases hsub with hl | hr
    · rw [List.mem_filter] at hl
      exact h row hrow0 hnone sub hl.1 hdoc
    · rw [List.mem_singleton] at hr
      subst hr
      rw [Bool.not_eq_true', beq_eq_false_iff_ne] at hrd
      exact absurd hdoc.symm hrd

/-- Witness: the amended C5 theorem applied to the concrete one-subscription
store. -/
theorem suppression_invariant_preservation_witness :
    docSuppressionInvariant (stopReminders invStore0 1 none "manual" "owner" 50) :=
  (suppression_invariant_preservation invStore0
    (by unfold docSuppressionInvariant; decide)).1 1 none "manual" "owner" 50

/-- C8: a pending document already tracked by a stopped subscription is NOT
left unchanged by discovery: because the already-enrolled check consults the
due-candidate list, the stopped subscription is replaced by a fresh enabled
row (enabled true, policy and createdAt reset, stopped fields cleared) and the
document is counted as newly enrolled. -/
theorem autoEnroll_resets_stopped_subscription :
    (autoEnrollPendingDocuments stoppedTrackedStore [1] 100).2 = 1 ∧
    (autoEnrollPendingDocuments stoppedTrackedStore [1] 100).1.subscriptions =
      [⟨1, true, 4, 10, 100, none, none⟩] ∧
    stoppedTrackedStore.subscriptions =
      [⟨1, false, 4, 10, 0, some 10, some "manual"⟩] :=
  ⟨rfl, rfl, rfl⟩

/-- C9 (counterexample): a cycle over one candidate that is evaluated but not
due returns the record with fields processed 1, sent 0 and errors 0 — the
returned record has exactly these three counts and no skipped count; the
not-due candidate is absorbed into processed. -/
theorem cycle_counts_counterexample :
    processReminders skippedEnv skippedStore false 1000 =
      (skippedStore, Except.ok ⟨1, 0, 0⟩) := rfl

/-- C9 (amended): a healthy cycle returns a record with the three counts
processed, sent and errors (there is no skipped count); every candidate lands
in processed or in errors, and sent never exceeds processed. -/
theorem cycle_counts_record (env : Env) (s : Store) (dry : Bool) (now : Int)
    (h : env.healthy = true) :
    ∃ s2 counts, processReminders env s dry now = (s2, Except.ok counts) ∧
      counts.processed + counts.errors =
        (getDocumentsForReminders s now).length ∧
      counts.sent ≤ counts.processed := by
  have hc := foldl_cycleStep_counts env dry now (getDocumentsForReminders s now)
    (s, ⟨0, 0, 0⟩) (Nat.le_refl 0)
  refine ⟨((getDocumentsForReminders s now).foldl (cycleStep env dry now)
      (s, ⟨0, 0, 0⟩)).1,
    ((getDocumentsForReminders s now).foldl (cycleStep env dry now)
      (s, ⟨0, 0, 0⟩)).2, ?_, ?_, hc.1⟩
  · simp only [processReminders, h, if_true]
  · have h2 := hc.2
    dsimp only at h2
    omega

/-- Witness: the amended C9 theorem applied to the concrete skipped-candidate
cycle. -/
theorem cycle_counts_record_witness :
    ∃ s2 counts,
      processReminders skippedEnv skippedStore false 1000 =
        (s2, Except.ok counts) ∧
      counts.processed + counts.errors =
        (getDocumentsForReminders skippedStore 1000).length ∧
      counts.sent ≤ counts.processed :=
  cycle_counts_record skippedEnv skippedStore false 1000 rfl

end AutoReminders
